import Mathlib

/-!
Shallow embedding of the coordinate-transformation and annotation-synchronization
core of the `wsi-annotation-demo` repository (OpenSeadragon whole-slide-image
viewer with SAM-assisted annotation), together with theorems settling the
frozen claims about it.

Conventions of the embedding:
* JavaScript numbers are modelled as rationals (`ℚ`); every float occurring in
  the relevant code paths is rational, `Math.floor` is `Int.floor` and
  `Math.round` is Mathlib's `round` (both round half-up, matching JS).
* JavaScript object fields that may be `undefined` are modelled as `Option`;
  a missing field is `none`.  A field read guarded by truthiness
  (`!obj.field`) is modelled by matching on the `Option` (with the numeric
  falsy case `0` handled explicitly where the code distinguishes it).
* Fallible functions returning `null` are modelled with `Option`.
* JS strings are Lean `String`s; the string operations the code uses
  (`startsWith`, `toLowerCase`, `includes`, `trim`) are re-implemented
  structurally on the underlying character lists so that all predicates
  kernel-evaluate.
-/

namespace WsiDemo

/-! ## JS string primitives -/

/-- Structural prefix test on character lists (`needle` first). -/
def isPrefixList : List Char → List Char → Bool
  | [], _ => true
  | _ :: _, [] => false
  | c :: cs, d :: ds => c = d && isPrefixList cs ds

/-- JS `String.prototype.startsWith`. -/
def jsStartsWith (s p : String) : Bool := isPrefixList p.data s.data

/-- Substring occurrence test on character lists (haystack first). -/
def containsSubList : List Char → List Char → Bool
  | [], sub => sub.isEmpty
  | c :: t, sub => isPrefixList sub (c :: t) || containsSubList t sub

/-- JS `String.prototype.includes`. -/
def jsIncludes (s sub : String) : Bool := containsSubList s.data sub.data

/-- JS `String.prototype.toLowerCase` (ASCII range, which is all the code compares). -/
def jsToLower (s : String) : String := ⟨s.data.map Char.toLower⟩

/-- Whitespace recognizer for `trim`. -/
def isWsChar (c : Char) : Bool := c = ' ' || c = '\t' || c = '\n' || c = '\r'

/-- JS `String.prototype.trim`. -/
def jsTrim (s : String) : String :=
  ⟨(((s.data.dropWhile isWsChar).reverse.dropWhile isWsChar).reverse)⟩

/-! ## Data model (js/modules/coordinate-transforms.js, js/modules/sam-api.js)

`viewportBounds` objects are produced by `getCurrentViewportBounds` and carried
inside the `imageInfo` snapshot assembled by `getCurrentImageData`
(sam-api.js lines 150-188): `{x, y, width, height}` in WSI pixels, plus the
`downsample` key that the QuPath-style transforms expect to find on it.
`downsample` is `Option` because the object literal returned by
`getCurrentViewportBounds` (coordinate-transforms.js lines 234-239) does not
set it, in which case reading it yields `undefined`. -/

structure ViewportBounds where
  x : ℚ
  y : ℚ
  width : ℚ
  height : ℚ
  downsample : Option ℚ := none
deriving DecidableEq, Repr

/-- The snapshot record returned by `getCurrentImageData` (sam-api.js lines
181-188), restricted to the fields the coordinate transforms read: the capture
canvas dimensions in pixels (integers, `Math.round(containerSize)`) and the
viewport bounds frozen at capture time.  The raster payload (`imageData`),
`scale` and `containerSize` play no role in any claim and are omitted. -/
structure ImageInfo where
  width : ℤ
  height : ℤ
  viewportBounds : ViewportBounds
deriving DecidableEq, Repr

/-- A `coords` object handed to the forward transform: a point `{x, y}`,
optionally with `width`/`height` when the prompt is a box. -/
structure Coords where
  x : ℚ
  y : ℚ
  width : Option ℚ := none
  height : Option ℚ := none
deriving DecidableEq, Repr

namespace CoordinateTransforms

/-- Embeds `transformCoordinatesToCanvasQuPathStyle`
(coordinate-transforms.js lines 13-103), the forward ImagePixel → CapturePixel
transform.  Parameters:
* `viewportToImageCoordinates` — the external OpenSeadragon conversion used by
  the normalized-coordinate heuristic branch (lines 36-50);
* `coords`, `imageInfo` — the function's own arguments;
* `windowCurrentImageInfo` — the global `window.currentImageInfo`, preferred
  over the argument at line 24 (`window.currentImageInfo || imageInfo`).

Line-by-line: the coordinate-type heuristic (line 36) treats any point in the
unit square as normalized; the guard at lines 61-64 returns the input
unchanged when `viewportBounds.downsample` is `undefined` or `0` (falsy);
lines 77-88 apply `floor((image - offset) / downsample)` and scale optional
width/height; lines 90-99 clamp into the capture canvas. -/
def transformCoordinatesToCanvasQuPathStyle
    (viewportToImageCoordinates : ℚ × ℚ → ℚ × ℚ)
    (coords : Coords) (imageInfo : ImageInfo)
    (windowCurrentImageInfo : Option ImageInfo) : Coords :=
  let currentImageInfo := windowCurrentImageInfo.getD imageInfo
  let viewportBounds := currentImageInfo.viewportBounds
  let imagePixelCoords : ℚ × ℚ :=
    if 0 ≤ coords.x ∧ coords.x ≤ 1 ∧ 0 ≤ coords.y ∧ coords.y ≤ 1 then
      viewportToImageCoordinates (coords.x, coords.y)
    else
      (coords.x, coords.y)
  match viewportBounds.downsample with
  | none => coords
  | some downsample =>
    if downsample = 0 then coords
    else
      let xOffset := viewportBounds.x
      let yOffset := viewportBounds.y
      let tx : ℚ := ((⌊(imagePixelCoords.1 - xOffset) / downsample⌋ : ℤ) : ℚ)
      let ty : ℚ := ((⌊(imagePixelCoords.2 - yOffset) / downsample⌋ : ℤ) : ℚ)
      let tw : Option ℚ := coords.width.map (fun w => ((⌊w / downsample⌋ : ℤ) : ℚ))
      let th : Option ℚ := coords.height.map (fun h => ((⌊h / downsample⌋ : ℤ) : ℚ))
      let cx : ℚ := max 0 (min ((imageInfo.width : ℚ) - 1) tx)
      let cy : ℚ := max 0 (min ((imageInfo.height : ℚ) - 1) ty)
      { x := cx,
        y := cy,
        width := tw.map (fun w => max 1 (min ((imageInfo.width : ℚ) - cx) w)),
        height := th.map (fun h => max 1 (min ((imageInfo.height : ℚ) - cy) h)) }

/-- Embeds the inner `transformCoordinate` closure of
`transformCanvasCoordinatesToWSIQuPathStyle` (coordinate-transforms.js lines
152-170): the inverse CapturePixel → ImagePixel map
`image = canvas * downsample + offset`, with the malformed-coordinate guard
(length < 2 yields `[0, 0]`). -/
def transformCoordinate (downsample xOffset yOffset : ℚ) : List ℚ → List ℚ
  | canvasX :: canvasY :: _ =>
    [canvasX * downsample + xOffset, canvasY * downsample + yOffset]
  | _ => [0, 0]

/-- Embeds `transformCanvasCoordinatesToWSIQuPathStyle`
(coordinate-transforms.js lines 115-195) on triple-nested polygon input
`[[[x,y], ...], ...]` (the branch at lines 175-180, which maps every ring).
`windowCurrentImageInfo` models the global read at line 133; the guard at
lines 136-139 returns `null` when `downsample` is missing or `0`. -/
def transformCanvasCoordinatesToWSIQuPathStyle
    (canvasCoordinates : List (List (List ℚ)))
    (imageInfo : ImageInfo) (windowCurrentImageInfo : Option ImageInfo) :
    Option (List (List (List ℚ))) :=
  let currentImageInfo := windowCurrentImageInfo.getD imageInfo
  let viewportBounds := currentImageInfo.viewportBounds
  match viewportBounds.downsample with
  | none => none
  | some downsample =>
    if downsample = 0 then none
    else
      some (canvasCoordinates.map fun ring =>
        ring.map (transformCoordinate downsample viewportBounds.x viewportBounds.y))

/-- Embeds `getCurrentViewportBounds` (coordinate-transforms.js lines 208-246).
The two corner conversions and the zoom query are external OpenSeadragon
calls, so they are parameters.  The body computes
`downsample = 1.0 / currentZoom` (line 231) but the object literal returned at
lines 234-239 contains only `x`, `y`, `width`, `height`; its `downsample`
property is therefore `undefined` (`none`). -/
def getCurrentViewportBounds (topLeftImage bottomRightImage : ℚ × ℚ)
    (currentZoom : ℚ) : ViewportBounds :=
  let downsample : ℚ := 1 / currentZoom
  { x := ((round topLeftImage.1 : ℤ) : ℚ),
    y := ((round topLeftImage.2 : ℤ) : ℚ),
    width := ((round (bottomRightImage.1 - topLeftImage.1) : ℤ) : ℚ),
    height := ((round (bottomRightImage.2 - topLeftImage.2) : ℤ) : ℚ),
    downsample := none }

end CoordinateTransforms

namespace SamApi

/-- Embeds `wsiToViewportCoords` (sam-api.js lines 574-586, port of
`wsi_to_viewport_coords` from InteractiveSegmentation.py): relative position
within the region, scaled to the capture canvas and floored.  Note that this
variant performs no clamping. -/
def wsiToViewportCoords (wsiPoint : ℚ × ℚ) (left top width height : ℚ)
    (shapeWidth shapeHeight : ℚ) : ℚ × ℚ :=
  let relX := (wsiPoint.1 - left) / width
  let relY := (wsiPoint.2 - top) / height
  (((⌊relX * shapeWidth⌋ : ℤ) : ℚ), ((⌊relY * shapeHeight⌋ : ℤ) : ℚ))

/-- Embeds `viewportToWsiCoords` (sam-api.js lines 592-608): the inverse map
`wsi = regionOrigin + viewportCoord / shape * regionSize`, applied to a list
of coordinate pairs.  The early return for an empty list (lines 593-595) is
the empty map. -/
def viewportToWsiCoords (viewportCoords : List (ℚ × ℚ))
    (left top width height : ℚ) (shapeWidth shapeHeight : ℚ) : List (ℚ × ℚ) :=
  let widthInv := 1 / shapeWidth
  let heightInv := 1 / shapeHeight
  viewportCoords.map fun coord =>
    (left + coord.1 * widthInv * width, top + coord.2 * heightInv * height)

/-- Embeds sam-api.js `transformCanvasToWSICoordinates` (lines 665-693): the
guard rejects input without a first ring; otherwise only `coordinates[0]` is
inverse-transformed via `viewportToWsiCoords` against the snapshot's
`viewportBounds`, and the result is wrapped as a single-ring polygon.  All
rings after the first are dropped. -/
def transformCanvasToWSICoordinates (coordinates : List (List (ℚ × ℚ)))
    (imageInfo : ImageInfo) : Option (List (List (ℚ × ℚ))) :=
  match coordinates with
  | [] => none
  | ring0 :: _ =>
    let viewportBounds := imageInfo.viewportBounds
    some [viewportToWsiCoords ring0 viewportBounds.x viewportBounds.y
      viewportBounds.width viewportBounds.height
      (imageInfo.width : ℚ) (imageInfo.height : ℚ)]

/-- Embeds `calculatePolygonArea` (sam-api.js lines 439-454): the shoelace
formula with wrap-around indexing, absolute value halved; fewer than 3
vertices yield area 0. -/
def calculatePolygonArea (coordinates : List (ℚ × ℚ)) : ℚ :=
  if coordinates.length < 3 then 0
  else
    let n := coordinates.length
    let area := (List.range n).foldl
      (fun area i =>
        let j := (i + 1) % n
        let ci := coordinates.getD i (0, 0)
        let cj := coordinates.getD j (0, 0)
        area + ci.1 * cj.2 - cj.1 * ci.2) 0
    |area| / 2

/-- A candidate mask feature from the SAM response, reduced to the fields the
selection logic reads.  `geometryCoordinates` is `feature.geometry.coordinates`
(`none` models a feature without usable geometry). -/
structure SamFeature where
  geometryCoordinates : Option (List (List (ℚ × ℚ)))
  quality : ℚ := 0
deriving DecidableEq, Repr

/-- The `feature.calculatedArea` assignment in `convertSAMResultToAnnotation`
(sam-api.js lines 354-361): shoelace area of the first ring when
`feature.geometry.coordinates[0]` exists, else `Infinity` (modelled `none`). -/
def calculatedArea (f : SamFeature) : Option ℚ :=
  match f.geometryCoordinates with
  | some (coords0 :: _) => some (calculatePolygonArea coords0)
  | _ => none

/-- Strict comparison on computed areas with `Infinity` (`none`) as top, the
order realized by the ascending comparator `a.calculatedArea -
b.calculatedArea`. -/
def areaLt : Option ℚ → Option ℚ → Bool
  | some x, some y => decide (x < y)
  | some _, none => true
  | none, _ => false

/-- Non-strict counterpart of `areaLt`, used to state minimality. -/
def areaLe : Option ℚ → Option ℚ → Bool
  | some x, some y => decide (x ≤ y)
  | some _, none => true
  | none, some _ => false
  | none, none => true

/-- One comparison step of the ascending sort: keep the candidate with the
smaller `calculatedArea`, preferring the earlier one on ties (stable sort). -/
def selectStep (best g : SamFeature) : SamFeature :=
  if areaLt (calculatedArea g) (calculatedArea best) then g else best

/-- Embeds the candidate selection of `convertSAMResultToAnnotation`
(sam-api.js lines 363-364): `features.sort((a, b) => a.calculatedArea -
b.calculatedArea)` followed by `features[0]`.  A stable ascending sort puts at
index 0 the earliest feature of minimal area, which this fold computes
directly; an empty list yields `null` (the `features.length === 0` guard at
lines 348-351). -/
def selectSmallestFeature : List SamFeature → Option SamFeature
  | [] => none
  | f :: fs => some (fs.foldl selectStep f)

/-- Embeds sam-api.js `createSVGPathFromWSICoordinates` (lines 698-716): emits
an SVG `polygon` element from `wsiCoordinates[0]` only; returns the empty
string when there is no first ring or it is empty. -/
def createSVGPathFromWSICoordinates (wsiCoordinates : List (List (ℚ × ℚ))) : String :=
  match wsiCoordinates with
  | [] => ""
  | coords :: _ =>
    if coords.isEmpty then ""
    else
      "<svg><polygon points=\"" ++
        String.intercalate " " (coords.map fun c => toString c.1 ++ "," ++ toString c.2) ++
        "\" /></svg>"

end SamApi

namespace AnnotationManager

/-- One element of an annotation's `body` array (W3C Web Annotation model):
`type`, `purpose` and `value`, each possibly absent. -/
structure BodyItem where
  type : Option String := none
  purpose : Option String := none
  value : Option String := none
deriving DecidableEq, Repr

/-- The JS annotation object, reduced to the fields the classifier, store and
pipeline read: `id`, the `body` array, the target selector's value (kept
opaque — it carries the geometry), and the optional SAM markers consulted by
`isAnnotationFromSAMEnhanced`. -/
structure Annot where
  id : String
  body : List BodyItem := []
  selectorValue : String := ""
  samGenerated : Bool := false
  samTool : Option String := none
deriving DecidableEq, Repr

/-- Embeds `isAnnotationFromSAMEnhanced` (annotation-manager.js lines
523-569): the five detection methods in source order — `id` prefix `sam-`,
`samGenerated === true`, `samTool` starting with `sam-`, the global
`currentTool` starting with `sam-`, and a body value containing (lowercased)
`sam` or `segment anything`. -/
def isAnnotationFromSAMEnhanced (currentTool : String) (a : Annot) : Bool :=
  if jsStartsWith a.id "sam-" then true
  else if a.samGenerated then true
  else if (match a.samTool with
    | some t => jsStartsWith t "sam-"
    | none => false) then true
  else if jsStartsWith currentTool "sam-" then true
  else if a.body.any (fun item =>
    match item.value with
    | some v => jsIncludes (jsToLower v) "sam" || jsIncludes (jsToLower v) "segment anything"
    | none => false) then true
  else false

/-- Embeds `isAnnotationFromSAM` (annotation-manager.js lines 885-888), the
code's provenance predicate: the id starts with `sam-`. -/
def isAnnotationFromSAM (a : Annot) : Bool := jsStartsWith a.id "sam-"

/-- The explicit-tag extraction applied to one body item inside
`getAnnotationTags` (annotation-manager.js lines 468-484): a non-empty trimmed
`value` with `purpose === 'tagging'` yields that trimmed value. -/
def explicitTagOfItem (item : BodyItem) : Option String :=
  match item.value with
  | some v =>
    if jsTrim v ≠ "" then
      if item.purpose = some "tagging" then some (jsTrim v) else none
    else none
  | none => none

/-- Embeds `getAnnotationTags` (annotation-manager.js lines 458-518).  Body
items with a non-empty trimmed `value` and `purpose === 'tagging'` yield the
explicit tag list; if none exist the default tag is `SAM` or `Manual`
according to `isAnnotationFromSAMEnhanced`.  The `Others` fallback at lines
509-513 fires only when a JS exception is thrown, which has no counterpart in
this total model. -/
def getAnnotationTags (currentTool : String) (a : Annot) : List String :=
  let tags := a.body.filterMap explicitTagOfItem
  if tags ≠ [] then tags
  else [if isAnnotationFromSAMEnhanced currentTool a then "SAM" else "Manual"]

/-- The global `annotations` object of annotation-manager.js (line 14): a
mapping from tag to the list of annotations filed under it, modelled as an
association list. -/
abbrev Store := List (String × List Annot)

/-- Reads `annotations[tag]`, defaulting to the empty list. -/
def getBucket : Store → String → List Annot
  | [], _ => []
  | p :: rest, tag => if p.1 = tag then p.2 else getBucket rest tag

/-- Writes `annotations[tag] = v`. -/
def setBucket : Store → String → List Annot → Store
  | [], tag, v => [(tag, v)]
  | p :: rest, tag, v =>
    if p.1 = tag then (tag, v) :: rest else p :: setBucket rest tag v

/-- Embeds the storage effect of `addAnnotationToList` (annotation-manager.js
lines 574-608): for each tag of the annotation, push it onto
`annotations[tag]` (creating the bucket if needed).  The DOM side effects
(folder elements, counters) are outside the model. -/
def addAnnotationToList (currentTool : String) (s : Store) (a : Annot) : Store :=
  (getAnnotationTags currentTool a).foldl
    (fun s tag => setBucket s tag (getBucket s tag ++ [a])) s

/-- Embeds the storage effect of `deleteAnnotation` (annotation-manager.js
lines 850-880): for each tag of the annotation, filter it out of
`annotations[tag]` by id.  The viewer-layer removal is modelled in
`ViewerCore`. -/
def deleteAnnotationFromStore (currentTool : String) (s : Store) (a : Annot) : Store :=
  (getAnnotationTags currentTool a).foldl
    (fun s tag => setBucket s tag ((getBucket s tag).filter (fun b => b.id ≠ a.id))) s

/-- Embeds annotation-manager.js `createSVGPathFromWSICoordinates` (lines
113-140): emits an SVG `path` (`M x0,y0 L x1,y1 ... Z`) built from the first
coordinate ring only; invalid or empty input yields the empty string. -/
def createSVGPathFromWSICoordinates (coordinateRings : List (List (ℚ × ℚ))) : String :=
  match coordinateRings with
  | [] => ""
  | firstRing :: _ =>
    match firstRing with
    | [] => ""
    | c0 :: rest =>
      "<svg><path d=\"" ++
        (rest.foldl (fun pd c => pd ++ " L " ++ toString c.1 ++ "," ++ toString c.2)
          ("M " ++ toString c0.1 ++ "," ++ toString c0.2)) ++
        " Z\"></path></svg>"

end AnnotationManager

namespace ViewerCore

open AnnotationManager

/-- The observable state the pipeline mutates: the Annotorious layer (`anno`)
and the annotation-manager store. -/
structure ViewerState where
  viewerAnns : List Annot
  store : Store
deriving DecidableEq, Repr

/-- Embeds the resolution handler of the `createAnnotation` SAM branch
(viewer-core.js lines 426-466).  On a successful result (`samAnnotation`
non-null): transfer the original popup body when non-empty (lines 431-434),
remove the provisional annotation from the viewer and add the SAM one (lines
437-442), then `ensureAddAnnotation(samAnnotation)` files it in the store
(line 446).  On failure (`null` result, line 448-451, or a rejected promise,
lines 458-461): `ensureAddAnnotation(annotation)` files the original,
untouched annotation in the store.  No branch consults whether
`originalAnnotationId` still exists anywhere. -/
def handleSAMResolution (currentTool : String) (st : ViewerState)
    (origAnn : Annot) (originalAnnotationId : String)
    (samResult : Option Annot) : ViewerState :=
  match samResult with
  | some samAnn0 =>
    let samAnn := if origAnn.body ≠ [] then { samAnn0 with body := origAnn.body } else samAnn0
    { viewerAnns := (st.viewerAnns.filter fun a => a.id ≠ originalAnnotationId) ++ [samAnn],
      store := addAnnotationToList currentTool st.store samAnn }
  | none =>
    { st with store := addAnnotationToList currentTool st.store origAnn }

/-- A user deleting an annotation through the list UI (`deleteAnnotation`,
annotation-manager.js lines 850-880): removed from the Annotorious layer and
filtered out of every one of its tag buckets. -/
def userDeleteAnn (currentTool : String) (st : ViewerState) (a : Annot) : ViewerState :=
  { viewerAnns := st.viewerAnns.filter fun b => b.id ≠ a.id,
    store := deleteAnnotationFromStore currentTool st.store a }

/-- Embeds the `animation-finish` handler installed by
`setupDynamicImageInfoUpdates` (viewer-core.js lines 537-550): when
`window.currentImageInfo` is set, its `viewportBounds` property is overwritten
in place with the live viewport's current bounds.  Because `processSAMPrompt`
stores the very snapshot object it captured into `window.currentImageInfo`
(sam-api.js line 217), this mutates the snapshot the in-flight pipeline holds. -/
def updateViewportBoundsOnAnimationFinish (windowCurrentImageInfo : Option ImageInfo)
    (newViewportBounds : ViewportBounds) : Option ImageInfo :=
  match windowCurrentImageInfo with
  | some info => some { info with viewportBounds := newViewportBounds }
  | none => none

/-- Folds a sequence of completed pan/zoom animations (their freshly computed
bounds) over the shared `window.currentImageInfo` state. -/
def runAnimationFinishEvents (windowCurrentImageInfo : Option ImageInfo)
    (events : List ViewportBounds) : Option ImageInfo :=
  events.foldl updateViewportBoundsOnAnimationFinish windowCurrentImageInfo

end ViewerCore

end WsiDemo

namespace WsiDemo

open CoordinateTransforms SamApi AnnotationManager ViewerCore

/-! ## Helper lemmas -/

theorem areaLe_refl (a : Option ℚ) : areaLe a a = true := by
  cases a <;> simp [areaLe]

theorem areaLt_le {a b : Option ℚ} (h : areaLt a b = true) : areaLe a b = true := by
  cases a <;> cases b <;> simp_all [areaLt, areaLe] <;> linarith

theorem areaLt_false_le {a b : Option ℚ} (h : areaLt a b = false) : areaLe b a = true := by
  cases a <;> cases b <;> simp_all [areaLt, areaLe] <;> linarith

theorem areaLe_trans {a b c : Option ℚ} (h1 : areaLe a b = true)
    (h2 : areaLe b c = true) : areaLe a c = true := by
  cases a <;> cases b <;> cases c <;> simp_all [areaLe] <;> linarith

theorem selectStep_cases (a g : SamFeature) : selectStep a g = a ∨ selectStep a g = g := by
  unfold selectStep
  split
  · exact Or.inr rfl
  · exact Or.inl rfl

theorem selectStep_le_left (a g : SamFeature) :
    areaLe (calculatedArea (selectStep a g)) (calculatedArea a) = true := by
  unfold selectStep
  split
  · exact areaLt_le ‹_›
  · exact areaLe_refl _

theorem selectStep_le_arg (a g : SamFeature) :
    areaLe (calculatedArea (selectStep a g)) (calculatedArea g) = true := by
  unfold selectStep
  split
  · exact areaLe_refl _
  · exact areaLt_false_le (Bool.not_eq_true _ ▸ Bool.of_not_eq_true ‹_›)

theorem foldl_selectStep_mem :
    ∀ (fs : List SamFeature) (a : SamFeature),
      fs.foldl selectStep a = a ∨ fs.foldl selectStep a ∈ fs := by
  intro fs
  induction fs with
  | nil => intro a; exact Or.inl rfl
  | cons g gs ih =>
    intro a
    simp only [List.foldl_cons]
    rcases ih (selectStep a g) with h | h
    · rcases selectStep_cases a g with h2 | h2
      · exact Or.inl (h.trans h2)
      · exact Or.inr (by rw [h, h2]; exact List.mem_cons_self _ _)
    · exact Or.inr (List.mem_cons_of_mem _ h)

theorem foldl_selectStep_le :
    ∀ (fs : List SamFeature) (a : SamFeature),
      areaLe (calculatedArea (fs.foldl selectStep a)) (calculatedArea a) = true ∧
      ∀ g ∈ fs, areaLe (calculatedArea (fs.foldl selectStep a)) (calculatedArea g) = true := by
  intro fs
  induction fs with
  | nil =>
    intro a
    exact ⟨areaLe_refl _, fun g hg => absurd hg (List.not_mem_nil g)⟩
  | cons g gs ih =>
    intro a
    simp only [List.foldl_cons]
    obtain ⟨h1, h2⟩ := ih (selectStep a g)
    refine ⟨areaLe_trans h1 (selectStep_le_left a g), ?_⟩
    intro g2 hg2
    rcases List.mem_cons.mp hg2 with heq | hmem
    · subst heq; exact areaLe_trans h1 (selectStep_le_arg a g2)
    · exact h2 g2 hmem

theorem getBucket_setBucket_self (s : Store) (tag : String) (v : List Annot) :
    getBucket (setBucket s tag v) tag = v := by
  induction s with
  | nil => simp [setBucket, getBucket]
  | cons p rest ih =>
    by_cases h : p.1 = tag
    · simp [setBucket, h, getBucket]
    · simp [setBucket, h, getBucket, ih]

theorem mem_foldl_setBucket_push :
    ∀ (tags : List String) (s : Store) (a : Annot), tags ≠ [] →
      ∃ tag ∈ tags,
        a ∈ getBucket
          (tags.foldl (fun s tag => setBucket s tag (getBucket s tag ++ [a])) s) tag := by
  intro tags
  induction tags with
  | nil => intro s a h; exact absurd rfl h
  | cons t rest ih =>
    intro s a _
    cases rest with
    | nil =>
      refine ⟨t, List.mem_cons_self _ _, ?_⟩
      simp only [List.foldl_cons, List.foldl_nil]
      rw [getBucket_setBucket_self]
      exact List.mem_append_right _ (List.mem_singleton.mpr rfl)
    | cons t2 r2 =>
      obtain ⟨tag, htag, hmem⟩ :=
        ih (setBucket s t (getBucket s t ++ [a])) a (List.cons_ne_nil _ _)
      exact ⟨tag, List.mem_cons_of_mem _ htag, by simpa [List.foldl_cons] using hmem⟩

theorem getAnnotationTags_ne_nil (currentTool : String) (a : Annot) :
    getAnnotationTags currentTool a ≠ [] := by
  unfold getAnnotationTags
  by_cases h : List.filterMap explicitTagOfItem a.body = []
  · simp [h]
  · simp [h]

theorem mem_addAnnotationToList (currentTool : String) (s : Store) (a : Annot) :
    ∃ tag ∈ getAnnotationTags currentTool a,
      a ∈ getBucket (addAnnotationToList currentTool s a) tag :=
  mem_foldl_setBucket_push _ s a (getAnnotationTags_ne_nil currentTool a)

/-- Scalar core of the round-trip bound: when `0 ≤ t < W * d`, the clamp is
the identity on `⌊t / d⌋` and the inverse lands within `d` of `t`. -/
theorem clamp_floor_roundtrip (W : ℤ) (t d : ℚ) (hdpos : 0 < d)
    (h0 : 0 ≤ t) (h1 : t < (W : ℚ) * d) :
    max 0 (min ((W : ℚ) - 1) ((⌊t / d⌋ : ℤ) : ℚ)) = ((⌊t / d⌋ : ℤ) : ℚ) ∧
    |((⌊t / d⌋ : ℤ) : ℚ) * d - t| ≤ d := by
  have hq0 : (0 : ℤ) ≤ ⌊t / d⌋ := Int.floor_nonneg.mpr (div_nonneg h0 hdpos.le)
  have hfle : ((⌊t / d⌋ : ℤ) : ℚ) ≤ t / d := Int.floor_le _
  have hflt : t / d < (⌊t / d⌋ : ℚ) + 1 := Int.lt_floor_add_one _
  have hmul : ((⌊t / d⌋ : ℤ) : ℚ) * d ≤ t := (le_div_iff hdpos).mp hfle
  have hub : t < (((⌊t / d⌋ : ℤ) : ℚ) + 1) * d := (div_lt_iff hdpos).mp hflt
  have hltW : ⌊t / d⌋ < W := by
    have h2 : t / d < (W : ℚ) := (div_lt_iff hdpos).mpr h1
    exact_mod_cast lt_of_le_of_lt hfle h2
  have hleW1 : ((⌊t / d⌋ : ℤ) : ℚ) ≤ (W : ℚ) - 1 := by
    have h3 : ⌊t / d⌋ ≤ W - 1 := by omega
    have h4 : ((⌊t / d⌋ : ℤ) : ℚ) ≤ ((W - 1 : ℤ) : ℚ) := by exact_mod_cast h3
    push_cast at h4
    linarith
  refine ⟨?_, ?_⟩
  · rw [min_eq_right hleW1, max_eq_right]
    exact_mod_cast hq0
  · rw [abs_le]
    constructor <;> nlinarith

/-- Claim C1: for the viewport descriptor with offset (1000,2000), width 500,
height 500, and downsample 2, the forward transform from ImagePixel to
CapturePixel space maps the point (1200,2200) to the capture-pixel point
(100,100), and applying the inverse transform to (100,100) under the same
descriptor yields exactly (1200,2200).  Quantifying over the external
normalized-coordinate converter shows the result does not depend on it. -/
theorem C1_scenario_forward_and_inverse
    (viewportToImage : ℚ × ℚ → ℚ × ℚ) :
    transformCoordinatesToCanvasQuPathStyle viewportToImage
        ⟨1200, 2200, none, none⟩
        ⟨500, 500, ⟨1000, 2000, 500, 500, some 2⟩⟩ none =
      ⟨100, 100, none, none⟩ ∧
    transformCanvasCoordinatesToWSIQuPathStyle [[[100, 100]]]
        ⟨500, 500, ⟨1000, 2000, 500, 500, some 2⟩⟩ none =
      some [[[1200, 2200]]] := by
  constructor
  · unfold transformCoordinatesToCanvasQuPathStyle
    rw [if_neg (by norm_num)]
    norm_num
  · unfold transformCanvasCoordinatesToWSIQuPathStyle transformCoordinate
    norm_num

/-- Claim C7 (settled as a code bug): the claim states that every viewport
descriptor assembled at snapshot-capture time carries a `downsample` field
equal to `1 / zoom`, strictly positive.  The code computes that quotient but
the object literal returned by `getCurrentViewportBounds` omits it, so the
assembled descriptor's `downsample` is always `undefined` — contradicting the
function's own doc comment ("Get current viewport bounds with downsample
factor", "@returns ... with downsample factor").  Consequently the QuPath-style
forward transform, handed such a descriptor, takes its missing-downsample
error branch and returns its input unchanged. -/
theorem C7_descriptor_lacks_downsample_field :
    (∀ topLeft bottomRight : ℚ × ℚ, ∀ zoom : ℚ,
      (getCurrentViewportBounds topLeft bottomRight zoom).downsample = none) ∧
    getCurrentViewportBounds (1000, 2000) (2000, 3000) 2 =
      ⟨1000, 2000, 1000, 1000, none⟩ ∧
    (∀ viewportToImage : ℚ × ℚ → ℚ × ℚ, ∀ coords : Coords, ∀ w h : ℤ,
      transformCoordinatesToCanvasQuPathStyle viewportToImage coords
        ⟨w, h, getCurrentViewportBounds (1000, 2000) (2000, 3000) 2⟩ none = coords) := by
  refine ⟨fun _ _ _ => rfl, ?_, fun _ _ _ _ => rfl⟩
  unfold getCurrentViewportBounds
  norm_num [round_eq]

/-- Claim C6 counterexample: the viewport descriptor attached to a snapshot is
not frozen.  Concretely: a snapshot is captured with bounds
`(0, 0, 100, 100)` and stored in `window.currentImageInfo`; a pan completes
(`animation-finish`) and overwrites the shared object's `viewportBounds` with
`(500, 500, 100, 100)`; the inverse transform run at response time against
that object maps capture point `(10, 10)` to `(510, 510)`, whereas the
capture-time descriptor maps it to `(10, 10)`. -/
theorem C6_descriptor_mutated_counterexample :
    updateViewportBoundsOnAnimationFinish
        (some ⟨100, 100, ⟨0, 0, 100, 100, none⟩⟩) ⟨500, 500, 100, 100, none⟩ =
      some ⟨100, 100, ⟨500, 500, 100, 100, none⟩⟩ ∧
    transformCanvasToWSICoordinates [[(10, 10)]] ⟨100, 100, ⟨500, 500, 100, 100, none⟩⟩ =
      some [[(510, 510)]] ∧
    transformCanvasToWSICoordinates [[(10, 10)]] ⟨100, 100, ⟨0, 0, 100, 100, none⟩⟩ =
      some [[(10, 10)]] ∧
    ((510 : ℚ), (510 : ℚ)) ≠ ((10 : ℚ), (10 : ℚ)) := by
  refine ⟨rfl, ?_, ?_, by norm_num⟩ <;>
    · unfold transformCanvasToWSICoordinates viewportToWsiCoords
      norm_num

/-- Claim C6 as amended: the descriptor attached to a snapshot is mutated in
place by every completed pan/zoom; when the remote response arrives, the
inverse transform reads the bounds written by the most recent
`animation-finish` event since capture (the capture-time bounds only when no
such event occurred). -/
theorem C6_descriptor_follows_latest_update (info : ImageInfo)
    (events : List ViewportBounds) :
    runAnimationFinishEvents (some info) events =
      some { info with viewportBounds := events.foldl (fun _ nb => nb) info.viewportBounds } := by
  induction events generalizing info with
  | nil => rfl
  | cons e es ih =>
    simp only [runAnimationFinishEvents, List.foldl_cons] at ih ⊢
    exact ih { info with viewportBounds := e }

/-- Claim C10: for every segmentation-response polygon with more than one
ring, only the first ring is inverse-transformed to ImagePixel space
(`transformCanvasToWSICoordinates` maps `coordinates[0]` and wraps it as a
one-ring polygon) and only the first ring is re-encoded into the committed
annotation's selector (both SVG encoders read only the first ring); every
subsequent ring is silently discarded. -/
theorem C10_only_first_ring_committed (ring0 ring1 : List (ℚ × ℚ))
    (rest : List (List (ℚ × ℚ))) (imageInfo : ImageInfo) :
    transformCanvasToWSICoordinates (ring0 :: ring1 :: rest) imageInfo =
      some [viewportToWsiCoords ring0 imageInfo.viewportBounds.x imageInfo.viewportBounds.y
        imageInfo.viewportBounds.width imageInfo.viewportBounds.height
        (imageInfo.width : ℚ) (imageInfo.height : ℚ)] ∧
    transformCanvasToWSICoordinates (ring0 :: ring1 :: rest) imageInfo =
      transformCanvasToWSICoordinates [ring0] imageInfo ∧
    SamApi.createSVGPathFromWSICoordinates (ring0 :: ring1 :: rest) =
      SamApi.createSVGPathFromWSICoordinates [ring0] ∧
    AnnotationManager.createSVGPathFromWSICoordinates (ring0 :: ring1 :: rest) =
      AnnotationManager.createSVGPathFromWSICoordinates [ring0] := by
  refine ⟨rfl, rfl, rfl, rfl⟩

/-- Claim C3: for every point in ImagePixel space — including points outside
the visible region — and every descriptor whose effective `downsample` is a
positive number, the forward transform clamps its output into
`[0, width-1] × [0, height-1]` of the capture canvas; it never returns a
negative or out-of-canvas coordinate.  The statement quantifies over the
external normalized-coordinate converter as well, so it covers both branches
of the coordinate-type heuristic. -/
theorem C3_forward_clamped_into_canvas
    (viewportToImage : ℚ × ℚ → ℚ × ℚ) (coords : Coords) (imageInfo : ImageInfo)
    (win : Option ImageInfo) (d : ℚ)
    (hd : (win.getD imageInfo).viewportBounds.downsample = some d) (hdpos : 0 < d)
    (hw : 1 ≤ imageInfo.width) (hh : 1 ≤ imageInfo.height) :
    0 ≤ (transformCoordinatesToCanvasQuPathStyle viewportToImage coords imageInfo win).x ∧
    (transformCoordinatesToCanvasQuPathStyle viewportToImage coords imageInfo win).x ≤
      (imageInfo.width : ℚ) - 1 ∧
    0 ≤ (transformCoordinatesToCanvasQuPathStyle viewportToImage coords imageInfo win).y ∧
    (transformCoordinatesToCanvasQuPathStyle viewportToImage coords imageInfo win).y ≤
      (imageInfo.height : ℚ) - 1 := by
  have hw1 : (1 : ℚ) ≤ (imageInfo.width : ℚ) := by exact_mod_cast hw
  have hh1 : (1 : ℚ) ≤ (imageInfo.height : ℚ) := by exact_mod_cast hh
  simp only [transformCoordinatesToCanvasQuPathStyle, hd, if_neg (ne_of_gt hdpos)]
  refine ⟨le_max_left _ _, ?_, le_max_left _ _, ?_⟩
  · exact max_le (by linarith) (min_le_left _ _)
  · exact max_le (by linarith) (min_le_left _ _)

/-- Witness for C3 at a concrete out-of-region point: `(2, 2)` under the C1
descriptor lands inside `[0, 499] × [0, 499]`. -/
theorem C3_forward_clamped_witness :
    0 ≤ (transformCoordinatesToCanvasQuPathStyle (fun p => p) ⟨2, 2, none, none⟩
      ⟨500, 500, ⟨1000, 2000, 500, 500, some 2⟩⟩ none).x ∧
    (transformCoordinatesToCanvasQuPathStyle (fun p => p) ⟨2, 2, none, none⟩
      ⟨500, 500, ⟨1000, 2000, 500, 500, some 2⟩⟩ none).x ≤ (((500 : ℤ) : ℚ)) - 1 ∧
    0 ≤ (transformCoordinatesToCanvasQuPathStyle (fun p => p) ⟨2, 2, none, none⟩
      ⟨500, 500, ⟨1000, 2000, 500, 500, some 2⟩⟩ none).y ∧
    (transformCoordinatesToCanvasQuPathStyle (fun p => p) ⟨2, 2, none, none⟩
      ⟨500, 500, ⟨1000, 2000, 500, 500, some 2⟩⟩ none).y ≤ (((500 : ℤ) : ℚ)) - 1 :=
  C3_forward_clamped_into_canvas (fun p => p) ⟨2, 2, none, none⟩
    ⟨500, 500, ⟨1000, 2000, 500, 500, some 2⟩⟩ none 2 rfl (by norm_num)
    (by norm_num) (by norm_num)

/-- Claim C2 counterexample: the round-trip bound does not hold for every
shape.  The point `(2, 2)` lies outside the visible region of the descriptor
`{offset:(1000,2000), size:500×500, downsample:2}`; the forward transform
clamps it to capture point `(0, 0)`, the inverse maps that to `(1000, 2000)`,
and the x-coordinate is off by `998`, far more than `downsample = 2`. -/
theorem C2_roundtrip_counterexample :
    transformCoordinatesToCanvasQuPathStyle (fun p => p) ⟨2, 2, none, none⟩
        ⟨500, 500, ⟨1000, 2000, 500, 500, some 2⟩⟩ none = ⟨0, 0, none, none⟩ ∧
    transformCoordinate 2 1000 2000 [0, 0] = [1000, 2000] ∧
    ¬ |(1000 : ℚ) - 2| ≤ 2 := by
  refine ⟨?_, ?_, by norm_num⟩
  · unfold transformCoordinatesToCanvasQuPathStyle
    rw [if_neg (by norm_num)]
    norm_num [min_def, max_def]
  · unfold transformCoordinate
    norm_num

/-- Claim C2 as amended: the round-trip bound holds for every point that the
forward transform does not clamp, i.e. every point inside the visible region
`[offset, offset + canvasSize * downsample)` of a descriptor with positive
downsample (and outside the unit square that the coordinate-type heuristic
reroutes): forward then inverse reproduces the point to within `downsample`
WSI pixels per coordinate. -/
theorem C2_roundtrip_within_visible_region
    (viewportToImage : ℚ × ℚ → ℚ × ℚ) (coords : Coords) (imageInfo : ImageInfo)
    (win : Option ImageInfo) (d : ℚ)
    (hd : (win.getD imageInfo).viewportBounds.downsample = some d) (hdpos : 0 < d)
    (hheur : ¬(0 ≤ coords.x ∧ coords.x ≤ 1 ∧ 0 ≤ coords.y ∧ coords.y ≤ 1))
    (hx0 : (win.getD imageInfo).viewportBounds.x ≤ coords.x)
    (hx1 : coords.x < (win.getD imageInfo).viewportBounds.x + (imageInfo.width : ℚ) * d)
    (hy0 : (win.getD imageInfo).viewportBounds.y ≤ coords.y)
    (hy1 : coords.y < (win.getD imageInfo).viewportBounds.y + (imageInfo.height : ℚ) * d) :
    ∃ wx wy : ℚ,
      transformCoordinate d (win.getD imageInfo).viewportBounds.x
          (win.getD imageInfo).viewportBounds.y
          [(transformCoordinatesToCanvasQuPathStyle viewportToImage coords imageInfo win).x,
           (transformCoordinatesToCanvasQuPathStyle viewportToImage coords imageInfo win).y] =
        [wx, wy] ∧
      |wx - coords.x| ≤ d ∧ |wy - coords.y| ≤ d := by
  obtain ⟨hclx, hax⟩ := clamp_floor_roundtrip imageInfo.width
    (coords.x - (win.getD imageInfo).viewportBounds.x) d hdpos
    (by linarith) (by linarith)
  obtain ⟨hcly, hay⟩ := clamp_floor_roundtrip imageInfo.height
    (coords.y - (win.getD imageInfo).viewportBounds.y) d hdpos
    (by linarith) (by linarith)
  simp only [transformCoordinatesToCanvasQuPathStyle, hd, if_neg (ne_of_gt hdpos),
    if_neg hheur]
  rw [hclx, hcly]
  refine ⟨_, _, rfl, ?_, ?_⟩
  · have heq : ((⌊(coords.x - (win.getD imageInfo).viewportBounds.x) / d⌋ : ℤ) : ℚ) * d +
        (win.getD imageInfo).viewportBounds.x - coords.x =
        ((⌊(coords.x - (win.getD imageInfo).viewportBounds.x) / d⌋ : ℤ) : ℚ) * d -
        (coords.x - (win.getD imageInfo).viewportBounds.x) := by ring
    rw [heq]
    exact hax
  · have heq : ((⌊(coords.y - (win.getD imageInfo).viewportBounds.y) / d⌋ : ℤ) : ℚ) * d +
        (win.getD imageInfo).viewportBounds.y - coords.y =
        ((⌊(coords.y - (win.getD imageInfo).viewportBounds.y) / d⌋ : ℤ) : ℚ) * d -
        (coords.y - (win.getD imageInfo).viewportBounds.y) := by ring
    rw [heq]
    exact hay

/-- Witness for the amended C2 at the spec's own scenario point `(1200, 2200)`
under the C1 descriptor. -/
theorem C2_roundtrip_witness :
    ∃ wx wy : ℚ,
      transformCoordinate 2 1000 2000
          [(transformCoordinatesToCanvasQuPathStyle (fun p => p) ⟨1200, 2200, none, none⟩
              ⟨500, 500, ⟨1000, 2000, 500, 500, some 2⟩⟩ none).x,
           (transformCoordinatesToCanvasQuPathStyle (fun p => p) ⟨1200, 2200, none, none⟩
              ⟨500, 500, ⟨1000, 2000, 500, 500, some 2⟩⟩ none).y] = [wx, wy] ∧
      |wx - 1200| ≤ 2 ∧ |wy - 2200| ≤ 2 :=
  C2_roundtrip_within_visible_region (fun p => p) ⟨1200, 2200, none, none⟩
    ⟨500, 500, ⟨1000, 2000, 500, 500, some 2⟩⟩ none 2 rfl (by norm_num)
    (by norm_num) (by norm_num) (by norm_num) (by norm_num) (by norm_num)

/-- Claim C4: whenever the response holds a non-empty candidate list, the
selected candidate is a member of the list whose shoelace area is minimal;
in particular, for three synthetic candidates with areas 400 (square), 100
(square) and 50 (triangle), the triangle is selected. -/
theorem C4_minimum_area_selection (features : List SamFeature)
    (hne : features ≠ []) :
    (∃ f, selectSmallestFeature features = some f ∧ f ∈ features ∧
      ∀ g ∈ features, areaLe (calculatedArea f) (calculatedArea g) = true) ∧
    calculatePolygonArea [(0, 0), (20, 0), (20, 20), (0, 20)] = 400 ∧
    calculatePolygonArea [(0, 0), (10, 0), (10, 10), (0, 10)] = 100 ∧
    calculatePolygonArea [(0, 0), (10, 0), (0, 10)] = 50 ∧
    selectSmallestFeature
        [⟨some [[(0, 0), (20, 0), (20, 20), (0, 20)]], 9/10⟩,
         ⟨some [[(0, 0), (10, 0), (10, 10), (0, 10)]], 8/10⟩,
         ⟨some [[(0, 0), (10, 0), (0, 10)]], 1/10⟩] =
      some ⟨some [[(0, 0), (10, 0), (0, 10)]], 1/10⟩ := by
  refine ⟨?_, ?_, ?_, ?_, ?_⟩
  · match features, hne with
    | f :: fs, _ =>
      refine ⟨fs.foldl selectStep f, rfl, ?_, ?_⟩
      · rcases foldl_selectStep_mem fs f with h | h
        · rw [h]; exact List.mem_cons_self _ _
        · exact List.mem_cons_of_mem _ h
      · obtain ⟨h1, h2⟩ := foldl_selectStep_le fs f
        intro g hg
        rcases List.mem_cons.mp hg with heq | hmem
        · subst heq; exact h1
        · exact h2 g hmem
  · norm_num [calculatePolygonArea, List.range_succ]
  · norm_num [calculatePolygonArea, List.range_succ]
  · norm_num [calculatePolygonArea, List.range_succ]
  · norm_num [selectSmallestFeature, selectStep, calculatedArea, areaLt,
      calculatePolygonArea, List.range_succ]

/-- Witness for C4 at the three synthetic candidates. -/
theorem C4_minimum_area_witness :
    ∃ f, selectSmallestFeature
        [⟨some [[(0, 0), (20, 0), (20, 20), (0, 20)]], 9/10⟩,
         ⟨some [[(0, 0), (10, 0), (10, 10), (0, 10)]], 8/10⟩,
         ⟨some [[(0, 0), (10, 0), (0, 10)]], 1/10⟩] = some f ∧
      f ∈ [⟨some [[(0, 0), (20, 0), (20, 20), (0, 20)]], 9/10⟩,
         ⟨some [[(0, 0), (10, 0), (10, 10), (0, 10)]], 8/10⟩,
         ⟨some [[(0, 0), (10, 0), (0, 10)]], 1/10⟩] ∧
      ∀ g ∈ [⟨some [[(0, 0), (20, 0), (20, 20), (0, 20)]], (9/10 : ℚ)⟩,
         ⟨some [[(0, 0), (10, 0), (10, 10), (0, 10)]], 8/10⟩,
         ⟨some [[(0, 0), (10, 0), (0, 10)]], 1/10⟩],
        areaLe (calculatedArea f) (calculatedArea g) = true :=
  (C4_minimum_area_selection
    [⟨some [[(0, 0), (20, 0), (20, 20), (0, 20)]], 9/10⟩,
     ⟨some [[(0, 0), (10, 0), (10, 10), (0, 10)]], 8/10⟩,
     ⟨some [[(0, 0), (10, 0), (0, 10)]], 1/10⟩]
    (List.cons_ne_nil _ _)).1

/-- Claim C5: for every failed pipeline run (capture error, network error,
non-2xx response, empty/unusable result — all of which reach the handler as a
`null` result or a rejected promise), the user's provisional annotation is
committed to the store as the very same object (same geometry, same id, same
body), the viewer layer is left untouched, and the committed annotation is
Manual by the code's own provenance predicate (its id carries no `sam-`
prefix). -/
theorem C5_failure_keeps_original_unchanged (currentTool : String)
    (st : ViewerState) (origAnn : Annot) (originalAnnotationId : String)
    (hid : jsStartsWith origAnn.id "sam-" = false) :
    (handleSAMResolution currentTool st origAnn originalAnnotationId none).viewerAnns =
      st.viewerAnns ∧
    (∃ tag ∈ getAnnotationTags currentTool origAnn,
      origAnn ∈ getBucket
        (handleSAMResolution currentTool st origAnn originalAnnotationId none).store tag) ∧
    isAnnotationFromSAM origAnn = false := by
  refine ⟨rfl, ?_, ?_⟩
  · exact mem_addAnnotationToList currentTool st.store origAnn
  · simpa [isAnnotationFromSAM] using hid

/-- Witness for C5: a failed run over an empty store with a drawn box
annotation `anno-7` while the SAM rectangle tool is active. -/
theorem C5_failure_keeps_original_witness :
    (handleSAMResolution "sam-rect" ⟨[⟨"anno-7", [], "", false, none⟩], []⟩
        ⟨"anno-7", [], "", false, none⟩ "anno-7" none).viewerAnns =
      [⟨"anno-7", [], "", false, none⟩] ∧
    (∃ tag ∈ getAnnotationTags "sam-rect" ⟨"anno-7", [], "", false, none⟩,
      (⟨"anno-7", [], "", false, none⟩ : Annot) ∈ getBucket
        (handleSAMResolution "sam-rect" ⟨[⟨"anno-7", [], "", false, none⟩], []⟩
          ⟨"anno-7", [], "", false, none⟩ "anno-7" none).store tag) ∧
    isAnnotationFromSAM ⟨"anno-7", [], "", false, none⟩ = false :=
  C5_failure_keeps_original_unchanged "sam-rect"
    ⟨[⟨"anno-7", [], "", false, none⟩], []⟩
    ⟨"anno-7", [], "", false, none⟩ "anno-7" (by decide)

/-- Claim C8 counterexample: the pipeline does not abandon its commit when the
provisional annotation was deleted before the remote call resolved.
Concretely: the user deletes provisional `anno-1` (the viewer layer no longer
contains its id), yet on resolution the handler still inserts the
model-refined annotation `sam-42` into both the viewer layer and the store's
`SAM` bucket. -/
theorem C8_superseded_commit_counterexample :
    (userDeleteAnn "sam-point" ⟨[⟨"anno-1", [], "", false, none⟩], []⟩
        ⟨"anno-1", [], "", false, none⟩).viewerAnns = [] ∧
    (⟨"sam-42", [⟨some "TextualBody", none, some "Annotation"⟩], "", false, none⟩ : Annot) ∈
      (handleSAMResolution "sam-point"
        (userDeleteAnn "sam-point" ⟨[⟨"anno-1", [], "", false, none⟩], []⟩
          ⟨"anno-1", [], "", false, none⟩)
        ⟨"anno-1", [], "", false, none⟩ "anno-1"
        (some ⟨"sam-42", [⟨some "TextualBody", none, some "Annotation"⟩], "", false, none⟩)).viewerAnns ∧
    (⟨"sam-42", [⟨some "TextualBody", none, some "Annotation"⟩], "", false, none⟩ : Annot) ∈
      getBucket (handleSAMResolution "sam-point"
        (userDeleteAnn "sam-point" ⟨[⟨"anno-1", [], "", false, none⟩], []⟩
          ⟨"anno-1", [], "", false, none⟩)
        ⟨"anno-1", [], "", false, none⟩ "anno-1"
        (some ⟨"sam-42", [⟨some "TextualBody", none, some "Annotation"⟩], "", false, none⟩)).store
        "SAM" := by
  refine ⟨rfl, ?_, ?_⟩ <;> decide

/-- Claim C8 as amended: the resolution handler never checks whether its
target id still exists; it commits unconditionally.  For every state — in
particular states from which the provisional annotation was already deleted —
a successful resolution files the (body-transferred) model annotation in the
store, and a failed resolution re-files the original annotation. -/
theorem C8_commit_unconditional (currentTool : String) (st : ViewerState)
    (origAnn samAnn0 : Annot) (originalAnnotationId : String) :
    (∃ tag ∈ getAnnotationTags currentTool
        (if origAnn.body ≠ [] then { samAnn0 with body := origAnn.body } else samAnn0),
      (if origAnn.body ≠ [] then { samAnn0 with body := origAnn.body } else samAnn0) ∈
        getBucket (handleSAMResolution currentTool st origAnn originalAnnotationId
          (some samAnn0)).store tag) ∧
    (∃ tag ∈ getAnnotationTags currentTool origAnn,
      origAnn ∈ getBucket
        (handleSAMResolution currentTool st origAnn originalAnnotationId none).store tag) := by
  constructor
  · exact mem_addAnnotationToList currentTool _ _
  · exact mem_addAnnotationToList currentTool st.store origAnn

/-- Claim C9 as amended: an annotation carrying no explicit tagging body item
and matching none of the provenance-fallback steps is assigned the `Manual`
tag (not `Uncategorized`). -/
theorem C9_no_match_defaults_manual (currentTool : String) (a : Annot)
    (hsam : isAnnotationFromSAMEnhanced currentTool a = false)
    (htag : ∀ item ∈ a.body, explicitTagOfItem item = none) :
    getAnnotationTags currentTool a = ["Manual"] := by
  unfold getAnnotationTags
  rw [List.filterMap_eq_nil.mpr htag]
  simp [hsam]

/-- Witness for the amended C9: a commented, untagged, user-drawn annotation
while a manual tool is active classifies as `Manual`. -/
theorem C9_no_match_defaults_manual_witness :
    getAnnotationTags "rect"
      ⟨"anno-9", [⟨some "TextualBody", some "commenting", some "nice region"⟩],
        "", false, none⟩ = ["Manual"] :=
  C9_no_match_defaults_manual "rect"
    ⟨"anno-9", [⟨some "TextualBody", some "commenting", some "nice region"⟩],
      "", false, none⟩ (by decide) (by decide)

/-- Claim C9 counterexample: an annotation with no tagging body item and
matching none of the provenance-fallback steps is classified `Manual`, not
`Uncategorized`: the default branch of `getAnnotationTags` never produces an
`Uncategorized` tag. -/
theorem C9_no_match_counterexample :
    isAnnotationFromSAMEnhanced "circle" ⟨"anno-1", [], "", false, none⟩ = false ∧
    getAnnotationTags "circle" ⟨"anno-1", [], "", false, none⟩ = ["Manual"] ∧
    "Uncategorized" ∉ getAnnotationTags "circle" ⟨"anno-1", [], "", false, none⟩ := by
  refine ⟨rfl, rfl, ?_⟩
  intro h
  simp [getAnnotationTags, isAnnotationFromSAMEnhanced, jsStartsWith, isPrefixList] at h

end WsiDemo
